import Mathlib

/-!
Verification of the ah-rambo-backend article/user controllers.

The JS controllers in `src/server/controllers/Articles.js` and
`src/server/controllers/Users.js` are embedded shallowly: the database is a
record of lists of rows, every Sequelize query becomes a pure function on that
record, and each controller becomes a function from a request and the database
to the new database together with the HTTP response it sends.
-/

namespace AhRambo

/-- A row of the `Likes` table: polymorphic via `contentType`/`contentId`. -/
structure LikeRow where
  userId : Nat
  contentType : String
  contentId : Nat
  deriving DecidableEq, Repr

/-- A row of the `Dislikes` table (same shape as `Likes`, separate table). -/
structure DislikeRow where
  userId : Nat
  contentType : String
  contentId : Nat
  deriving DecidableEq, Repr

/-- A row of the `Categories` table. -/
structure CategoryRow where
  id : Nat
  name : String
  deriving DecidableEq, Repr

/-- A tag record as returned by the `Tags` controller (`id` is truthy iff nonzero). -/
structure TagRec where
  id : Nat
  name : String
  deriving DecidableEq, Repr

/-- A row of the `Articles` table (the columns the controllers touch). -/
structure ArticleRow where
  id : Nat
  slug : String
  title : String
  articleBody : Option String
  authorId : Nat
  categoryId : Nat
  likesCount : Nat
  dislikesCount : Nat
  publishedAt : Option Nat
  isArchived : Bool
  image : Option String
  views : Nat
  deriving DecidableEq, Repr

/-- A row of the `Users` table (the columns the controllers touch). -/
structure UserRow where
  id : Nat
  email : String
  userName : String
  password : String
  verified : Bool
  deriving DecidableEq, Repr

/-- A row of the `Sessions` table. -/
structure SessionRow where
  userId : Nat
  token : String
  expiresAt : Nat
  userAgent : String
  ipAddress : String
  devicePlatform : String
  deriving DecidableEq, Repr

/-- The relational state the embedded controllers read and mutate.
`articleTags` models the `ArticleTags` join table as (articleId, tag name). -/
structure DB where
  articles : List ArticleRow
  likes : List LikeRow
  dislikes : List DislikeRow
  categories : List CategoryRow
  users : List UserRow
  sessions : List SessionRow
  articleTags : List (Nat × String)
  deriving DecidableEq, Repr

/-- Shapes of the JSON bodies the controllers send. -/
inductive Body where
  /-- `\x7b message \x7d` -/
  | msg (message : String)
  /-- `\x7b message, article \x7d` (article refetched, possibly absent) -/
  | msgArticle (message : String) (article : Option ArticleRow)
  /-- `\x7b error \x7d` -/
  | err (error : String)
  /-- raw article dataValues with `tagList` and `category` attached -/
  | articleData (article : ArticleRow) (tagList : List String) (categoryName : String)
  /-- `\x7b user, token \x7d`; `password` is the user row's password field after
  the controller's `delete user.dataValues.password` (`none` = deleted) -/
  | user (id : Nat) (email : String) (userName : String) (password : Option String)
      (token : String)
  deriving DecidableEq, Repr

/-- An HTTP response: status code plus JSON body. -/
structure Response where
  status : Nat
  body : Body
  deriving DecidableEq, Repr

/-- Modelled from the spec: `serverResponse(res, statusCode, payload)` sends
`payload` as the JSON body with the given status code (helper source not in
`src/`; the spec describes responses as JSON envelopes with these codes). -/
def serverResponse (status : Nat) (body : Body) : Response :=
  ⟨status, body⟩

/-- Modelled from the spec: `serverError(res)` maps any unexpected exception to
a generic 500 (helper source not in `src/`; spec: "a catch-all that maps any
unexpected exception to a generic 500"). -/
def serverError : Response :=
  ⟨500, Body.err "internal server error"⟩

/-! ### Query helpers (Sequelize calls used by `Articles.js`) -/

/-- `Article.findBySlug(slug)`: first article row with the given slug, else null. -/
def findBySlug (db : DB) (slug : String) : Option ArticleRow :=
  db.articles.find? (fun a => a.slug == slug)

/-- `article.countLikes()`: the `likes` association is scoped to
`contentType: 'article'` with foreign key `contentId`. -/
def likesOf (db : DB) (articleId : Nat) : Nat :=
  (db.likes.filter (fun l => l.contentId == articleId && l.contentType == "article")).length

/-- `article.countDislikes()`: scoped like `likesOf`. -/
def dislikesOf (db : DB) (articleId : Nat) : Nat :=
  (db.dislikes.filter (fun l => l.contentId == articleId && l.contentType == "article")).length

/-- `article.getLikes({ where: { userId } })`. -/
def userLikesOn (db : DB) (userId articleId : Nat) : List LikeRow :=
  db.likes.filter
    (fun l => l.userId == userId && l.contentId == articleId && l.contentType == "article")

/-- `article.getDislikes({ where: { userId } })`. -/
def userDislikesOn (db : DB) (userId articleId : Nat) : List DislikeRow :=
  db.dislikes.filter
    (fun l => l.userId == userId && l.contentId == articleId && l.contentType == "article")

/-- `Article.update(fields, { where: { id } })`. -/
def updateArticleById (db : DB) (articleId : Nat) (f : ArticleRow → ArticleRow) : DB :=
  { db with articles := db.articles.map (fun a => if a.id == articleId then f a else a) }

/-- `Like.destroy({ where: { userId, contentType: 'article', contentId } })`. -/
def destroyLike (db : DB) (userId articleId : Nat) : DB :=
  let keep : LikeRow → Bool :=
    fun l => !(l.userId == userId && l.contentType == "article" && l.contentId == articleId)
  { db with likes := db.likes.filter keep }

/-- `Dislike.destroy({ where: { userId, contentType: 'article', contentId } })`. -/
def destroyDislike (db : DB) (userId articleId : Nat) : DB :=
  let keep : DislikeRow → Bool :=
    fun l => !(l.userId == userId && l.contentType == "article" && l.contentId == articleId)
  { db with dislikes := db.dislikes.filter keep }

/-- `article.createLike({ userId })`: the association scope fills in
`contentType: 'article'` and `contentId: article.id`. -/
def createLike (db : DB) (userId articleId : Nat) : DB :=
  { db with likes := db.likes ++ [⟨userId, "article", articleId⟩] }

/-- `article.createDislike({ userId })`. -/
def createDislike (db : DB) (userId articleId : Nat) : DB :=
  { db with dislikes := db.dislikes ++ [⟨userId, "article", articleId⟩] }

/-! ### The like/dislike subsystem (`Articles.js` lines 36–98, 202–372) -/

/-- `createLikeOrDislike(userAction, userId, article)` (Articles.js 72–98):
destroys the opposite row for this user, refreshes the opposite count, creates
the new row, refreshes its count. -/
def createLikeOrDislike (userAction : String) (userId : Nat) (articleId : Nat)
    (db : DB) : DB :=
  if userAction == "like" then
    let db1 := destroyDislike db userId articleId
    let db2 := updateArticleById db1 articleId
      (fun a => { a with dislikesCount := dislikesOf db1 articleId })
    let db3 := createLike db2 userId articleId
    updateArticleById db3 articleId (fun a => { a with likesCount := likesOf db3 articleId })
  else
    let db1 := destroyLike db userId articleId
    let db2 := updateArticleById db1 articleId
      (fun a => { a with likesCount := likesOf db1 articleId })
    let db3 := createDislike db2 userId articleId
    updateArticleById db3 articleId
      (fun a => { a with dislikesCount := dislikesOf db3 articleId })

/-- `customArticleResponse` (Articles.js 36–61): refetches the article and sends
`\x7b message, article \x7d`. -/
def customArticleResponse (status : Nat) (slug : String) (message : String)
    (db : DB) : Response :=
  serverResponse status (Body.msgArticle message (findBySlug db slug))

namespace Articles

/-- `Articles.addLike` (Articles.js 202–233). -/
def addLike (userId : Nat) (slug : String) (db : DB) : DB × Response :=
  match findBySlug db slug with
  | none => (db, serverResponse 404 (Body.err "article not found"))
  | some article =>
    if (userLikesOn db userId article.id).length != 0 then
      (db, serverResponse 200 (Body.msg "you have already liked this article"))
    else
      let db' := createLikeOrDislike "like" userId article.id db
      (db', customArticleResponse 201 slug "like added successfully" db')

/-- `Articles.addDislike` (Articles.js 247–278). -/
def addDislike (userId : Nat) (slug : String) (db : DB) : DB × Response :=
  match findBySlug db slug with
  | none => (db, serverResponse 404 (Body.err "article not found"))
  | some article =>
    if (userDislikesOn db userId article.id).length != 0 then
      (db, serverResponse 200 (Body.msg "you have already disliked this article"))
    else
      let db' := createLikeOrDislike "dislike" userId article.id db
      (db', customArticleResponse 201 slug "dislike added successfully" db')

/-- `Articles.removeLike` (Articles.js 291–325): destroys the user's like rows
and recomputes `likesCount` from the remaining rows. -/
def removeLike (userId : Nat) (slug : String) (db : DB) : DB × Response :=
  match findBySlug db slug with
  | none => (db, serverResponse 404 (Body.err "article not found"))
  | some article =>
    let db1 := destroyLike db userId article.id
    let db2 := updateArticleById db1 article.id
      (fun a => { a with likesCount := likesOf db1 article.id })
    (db2, customArticleResponse 200 slug "like removed successfully" db2)

/-- `Articles.removeDislike` (Articles.js 338–372). -/
def removeDislike (userId : Nat) (slug : String) (db : DB) : DB × Response :=
  match findBySlug db slug with
  | none => (db, serverResponse 404 (Body.err "article not found"))
  | some article =>
    let db1 := destroyDislike db userId article.id
    let db2 := updateArticleById db1 article.id
      (fun a => { a with dislikesCount := dislikesOf db1 article.id })
    (db2, customArticleResponse 200 slug "dislike removed successfully" db2)

end Articles

/-- One like/dislike request, for reasoning about sequences of operations. -/
inductive Op where
  | like (userId : Nat) (slug : String)
  | dislike (userId : Nat) (slug : String)
  | removeLike (userId : Nat) (slug : String)
  | removeDislike (userId : Nat) (slug : String)
  deriving DecidableEq, Repr

/-- The database after serving one request (response discarded). -/
def applyOp (o : Op) (db : DB) : DB :=
  match o with
  | .like u s => (Articles.addLike u s db).1
  | .dislike u s => (Articles.addDislike u s db).1
  | .removeLike u s => (Articles.removeLike u s db).1
  | .removeDislike u s => (Articles.removeDislike u s db).1

/-- The database after serving a sequence of requests, in order. -/
def applyOps (ops : List Op) (db : DB) : DB :=
  ops.foldl (fun d o => applyOp o d) db

/-- Every article row's stored counters equal the number of corresponding
like/dislike rows. -/
def countsConsistent (db : DB) : Prop :=
  ∀ a ∈ db.articles, a.likesCount = likesOf db a.id ∧ a.dislikesCount = dislikesOf db a.id

instance : DecidablePred countsConsistent := fun db =>
  inferInstanceAs (Decidable (∀ a ∈ db.articles, _ ∧ _))

/-- Every user holds at most one like-or-dislike row per article. -/
def atMostOneReaction (db : DB) : Prop :=
  ∀ u a : Nat, (userLikesOn db u a).length + (userDislikesOn db u a).length ≤ 1

/-! ### Tags (spec-modelled) and the create/update controllers -/

/-- Splitting accumulator: splits a character list at commas. -/
def splitCommaAux : List Char → List Char → List (List Char)
  | [], acc => [acc.reverse]
  | c :: rest, acc =>
    if c = ',' then acc.reverse :: splitCommaAux rest []
    else splitCommaAux rest (c :: acc)

/-- Split a string at commas (the JS `tags.split(',')`). -/
def splitComma (s : String) : List String :=
  (splitCommaAux s.data []).map (fun cs => String.mk cs)

/-- JS truthiness for an optional string: `undefined` and `''` are falsy. -/
def truthyStr : Option String → Option String
  | none => none
  | some t => if t == "" then none else some t

/-- JS string coercion in `tags += ',' + category`: an undefined `tags`
stringifies to the literal text "undefined". -/
def jsString : Option String → String
  | none => "undefined"
  | some t => t

/-- `category.toLowerCase()` modelled at the character-data level (ASCII case
folding, which is what the stored category names exercise). -/
def toLowerStr (s : String) : String := ⟨s.data.map Char.toLower⟩

/-- `status === 'draft' || articleBody === undefined ? null : Date.now()`
(Articles.js lines 125 and 426). -/
def computePublishedAt (status articleBody : Option String) (now : Nat) : Option Nat :=
  if status == some "draft" || articleBody == none then none else some now

namespace Tags

/-- Modelled from the spec: the `Tags` controller's `create` is not under
`src/`. Spec: "Tags are deduplicated, capped at 15, minimum length 2." The
comma-separated tag string is split and deduplicated; the call returns `false`
(here `none`) when the list exceeds 15 tags or a tag is shorter than 2
characters, else tag records with nonzero database ids. -/
def create (s : String) : Option (List TagRec) :=
  let names := (splitComma s).dedup
  if 15 < names.length || names.any (fun n => n.length < 2) then none
  else some (names.enum.map (fun p => ⟨p.1 + 1, p.2⟩))

/-- Modelled from the spec: the `Tags` controller's `associateArticle` is not
under `src/`. It links each created tag to the article through the
`ArticleTags` join table (rows already present are kept once) and returns the
tag names; with no created tags it is a no-op (`|| []` in the caller). -/
def associateArticle (articleId : Nat) (tagRecs : Option (List TagRec)) (db : DB) :
    DB × List String :=
  match tagRecs with
  | none => (db, [])
  | some recs =>
    let names := recs.map (fun t => t.name)
    let fresh := names.filter (fun n => !(db.articleTags.contains (articleId, n)))
    ({ db with articleTags := db.articleTags ++ fresh.map (fun n => (articleId, n)) }, names)

end Tags

namespace Articles

/-- `Articles.canTag` (Articles.js 171–189): `none` input stands for the `false`
that `Tags.create` returns on invalid tags. Returns the error response data, or
nothing when the tags are acceptable. -/
def canTag (tagArray : Option (List TagRec)) : Option (Nat × Body) :=
  match tagArray with
  | none =>
    some (400, Body.err "tags cannot be more than 15 and each tag must be more than a character")
  | some arr =>
    match arr with
    | [] => some (400, Body.err "tags should be an array of valid strings")
    | t :: _ =>
      if t.id == 0 then some (400, Body.err "tags should be an array of valid strings")
      else none

/-- The `if (tags) \x7b createTags = await Tags.create(tags); const error =
canTag(createTags); if (error) ... \x7d` block: outer `none` means the tags
value was falsy and the block was skipped. -/
def checkTags : Option (Option (List TagRec)) → Option (Nat × Body)
  | none => none
  | some ct => canTag ct

/-- `let image; if (file) image = await imageUpload(req);` — the upload may
throw (caught by each controller's catch-all where present). -/
def imageResult : Option (Except Unit String) → Except Unit (Option String)
  | none => .ok none
  | some (.error e) => .error e
  | some (.ok url) => .ok (some url)

end Articles

/-- The category lookup with fallback (Articles.js 127–134 and 406–413):
`Category.findOne(\x7bwhere: \x7bname: category\x7d\x7d)`, falling back to the
row named `other` when absent. -/
def categoryResolve (db : DB) (category : String) : Option CategoryRow :=
  match db.categories.find? (fun c => c.name == category) with
  | some cd => some cd
  | none => db.categories.find? (fun c => c.name == "other")

/-- `if (categoryDetails.name === 'other' && category !== 'other') tags +=
`,$\x7bcategory\x7d`;` (Articles.js 135 and 414). -/
def appendCategoryTag (cd : CategoryRow) (category : String) (tags : Option String) :
    Option String :=
  if cd.name == "other" && category != "other"
  then some (jsString tags ++ "," ++ category)
  else tags

/-- Request body of `POST /articles` (fields the controller reads). -/
structure CreateArticleBody where
  title : String
  articleBody : Option String
  status : Option String
  category : String
  tags : Option String
  deriving DecidableEq, Repr

/-- Request body of `PUT /articles/:slug`. -/
structure UpdateBody where
  title : Option String
  articleBody : Option String
  status : Option String
  category : Option String
  tags : Option String
  deriving DecidableEq, Repr

/-- `Object.keys(body).length === 0`. -/
def UpdateBody.isEmpty (b : UpdateBody) : Bool :=
  b.title == none && b.articleBody == none && b.status == none &&
  b.category == none && b.tags == none

/-- Auto-increment id for a new article row. -/
def nextArticleId (db : DB) : Nat := db.articles.length + 1

namespace Articles

/-- `Articles.createArticle` (Articles.js 113–161). An unknown (lowercased)
category falls back to the `other` category and appends the request category to
the tag string (`tags += ',cat'`, where an undefined `tags` stringifies to
"undefined"); a missing `other` row would make `categoryDetails.name` throw,
which the catch-all turns into the generic 500. Slug generation by
sequelize-slugify is modelled as the title itself (no claim reads the slug of a
created article). -/
def createArticle (file : Option (Except Unit String)) (authorId : Nat) (now : Nat)
    (body : CreateArticleBody) (db : DB) : DB × Response :=
  let category := toLowerStr body.category
  let publishedAt := computePublishedAt body.status body.articleBody now
  match categoryResolve db category with
  | none => (db, serverError)
  | some cd =>
    let tags := appendCategoryTag cd category body.tags
    let createTags := (truthyStr tags).map Tags.create
    match checkTags createTags with
    | some (st, b) => (db, serverResponse st b)
    | none =>
      match imageResult file with
      | .error _ => (db, serverError)
      | .ok image =>
        let article : ArticleRow :=
          { id := nextArticleId db
            slug := body.title
            title := body.title
            articleBody := body.articleBody
            authorId := authorId
            categoryId := cd.id
            likesCount := 0
            dislikesCount := 0
            publishedAt := publishedAt
            isArchived := false
            image := image
            views := 0 }
        let db1 := { db with articles := db.articles ++ [article] }
        let assoc := Tags.associateArticle article.id (createTags.getD none) db1
        (assoc.1, serverResponse 200 (Body.articleData article assoc.2 cd.name))

/-- The `if (category)` block of `Articles.update` (Articles.js 404–416):
returns the effective tags value and categoryId, or `none` when both category
lookups failed (`categoryDetails.name` throws → catch-all 500). -/
def updateCategoryStep (body : UpdateBody) (articleDetails : ArticleRow) (db : DB) :
    Option (Option String × Nat) :=
  match truthyStr body.category with
  | none => some (body.tags, articleDetails.categoryId)
  | some c0 =>
    let category := toLowerStr c0
    match categoryResolve db category with
    | none => none
    | some cd => some (appendCategoryTag cd category body.tags, cd.id)

/-- `Article.update(\x7b...body, publishedAt, image, categoryId\x7d)` applied to
one row: Sequelize ignores keys whose value is `undefined`, so absent body
fields keep the stored value, while `publishedAt` and `categoryId` are always
written. -/
def applyArticleUpdate (body : UpdateBody) (publishedAt : Option Nat)
    (image : Option String) (categoryId : Nat) (a : ArticleRow) : ArticleRow :=
  { a with
    title := body.title.getD a.title
    articleBody := match body.articleBody with
      | some s => some s
      | none => a.articleBody
    publishedAt := publishedAt
    image := match image with
      | some u => some u
      | none => a.image
    categoryId := categoryId }

/-- `Articles.update` after the empty-body check (Articles.js 396–447). -/
def updateRest (file : Option (Except Unit String)) (authorId : Nat) (slug : String)
    (now : Nat) (body : UpdateBody) (db : DB) : DB × Response :=
  match findBySlug db slug with
  | none => (db, serverResponse 404 (Body.err "article not found"))
  | some articleDetails =>
    if articleDetails.isArchived then (db, serverResponse 404 (Body.err "article not found"))
    else
      match updateCategoryStep body articleDetails db with
      | none => (db, serverError)
      | some (tags, categoryId) =>
        let createTags := (truthyStr tags).map Tags.create
        match checkTags createTags with
        | some (st, b) => (db, serverResponse st b)
        | none =>
          let assoc := Tags.associateArticle articleDetails.id (createTags.getD none) db
          let db1 := assoc.1
          match imageResult file with
          | .error _ => (db1, serverError)
          | .ok image =>
            let publishedAt := computePublishedAt body.status body.articleBody now
            let hit : ArticleRow → Bool := fun a => a.slug == slug && a.authorId == authorId
            match db1.articles.find? hit with
            | none => (db1, serverResponse 403 (Body.msg "article not updated"))
            | some firstRow =>
              let upd := applyArticleUpdate body publishedAt image categoryId
              let db2 := { db1 with articles := db1.articles.map (fun a => if hit a then upd a else a) }
              let tagList := (db2.articleTags.filter (fun p => p.1 == articleDetails.id)).map (fun p => p.2)
              let catName := ((db2.categories.find? (fun c => c.id == categoryId)).map (fun c => c.name)).getD ""
              (db2, serverResponse 200 (Body.articleData (upd firstRow) tagList catName))

/-- `Articles.update` (Articles.js 385–448). The empty-body 422 at line 394 has
no `return` in the source, so execution continues and any later writes still
happen while the client sees the already-sent 422. -/
def update (file : Option (Except Unit String)) (authorId : Nat) (slug : String)
    (now : Nat) (body : UpdateBody) (db : DB) : DB × Response :=
  let rest := updateRest file authorId slug now body db
  if body.isEmpty then
    (rest.1, serverResponse 422 (Body.err "request body should not be empty"))
  else rest

end Articles

/-! ### The Users controllers -/

/-- Request data of `POST /users/create` (body fields plus what
`getUserAgent(req)` and `req.ip` provide). -/
structure CreateUserReq where
  email : String
  userName : String
  password : String
  userAgent : String
  devicePlatform : String
  ipAddress : String
  deriving DecidableEq, Repr

/-- `User.findByEmail`. -/
def findByEmail (db : DB) (email : String) : Option UserRow :=
  db.users.find? (fun u => u.email == email)

/-- `User.findByUsername`. -/
def findByUsername (db : DB) (userName : String) : Option UserRow :=
  db.users.find? (fun u => u.userName == userName)

/-- Auto-increment id for a new user row. -/
def nextUserId (db : DB) : Nat := db.users.length + 1

namespace Users

/-- `Users.create` (Users.js 28–64). `hashResult` is the outcome of the
`bcrypt.hash(req.body.password, 10)` call — the fallible step modelled; `token`
stands for `generateToken(\x7bid\x7d, '24h')` and `expiresAt` for
`expiryDate(devicePlatform)`. The whole body sits in try/catch, so a throwing
hash becomes the generic 500. The response user object is sent after `delete
user.dataValues.password` (its password field is `none`). -/
def create (hashResult : Except Unit String) (token : String) (expiresAt : Nat)
    (req : CreateUserReq) (db : DB) : DB × Response :=
  match findByEmail db req.email with
  | some _ => (db, serverResponse 409 (Body.err "email has already been taken"))
  | none =>
    match findByUsername db req.userName with
    | some _ => (db, serverResponse 409 (Body.err "username has already been taken"))
    | none =>
      match hashResult with
      | .error _ => (db, serverError)
      | .ok hashedPassword =>
        let id := nextUserId db
        let user : UserRow :=
          { id := id
            email := req.email
            userName := req.userName
            password := hashedPassword
            verified := false }
        let db1 := { db with users := db.users ++ [user] }
        let session : SessionRow :=
          { userId := id
            token := token
            expiresAt := expiresAt
            userAgent := req.userAgent
            ipAddress := req.ipAddress
            devicePlatform := req.devicePlatform }
        let db2 := { db1 with sessions := db1.sessions ++ [session] }
        (db2, serverResponse 201 (Body.user id req.email req.userName none token))

/-- `Users.changePassword` (the Users controller variant without try/catch):
`hashResult` is the outcome of `bcrypt.hash(password, 10)`; when it throws the
exception propagates out of the controller (`Except.error`) instead of becoming
a 500. -/
def changePassword (hashResult : Except Unit String) (userId : Nat)
    (db : DB) : Except Unit (DB × Response) :=
  match hashResult with
  | .error e => .error e
  | .ok hashedPassword =>
    let f : UserRow → UserRow := fun u =>
      if u.id == userId then { u with password := hashedPassword } else u
    .ok ({ db with users := db.users.map f },
      serverResponse 200 (Body.msg "password changed successfully"))

end Users

/-! ### Concrete fixtures used by witnesses and counterexamples -/

/-- Empty database. -/
def emptyDB : DB := ⟨[], [], [], [], [], [], []⟩

/-- A published article by user 7 in category 1. -/
def exArticle : ArticleRow :=
  ⟨1, "s1", "t1", some "b", 7, 1, 0, 0, some 50, false, none, 0⟩

/-- Database with one article and the categories `other` and `tech`. -/
def exDB : DB :=
  ⟨[exArticle], [], [], [⟨1, "other"⟩, ⟨2, "tech"⟩], [], [], []⟩

/-- `exDB` after user 5 liked article 1 (counts consistent). -/
def exDBLiked : DB :=
  ⟨[{ exArticle with likesCount := 1 }], [⟨5, "article", 1⟩], [],
    [⟨1, "other"⟩, ⟨2, "tech"⟩], [], [], []⟩

/-- `exDB` after user 5 disliked article 1 (counts consistent). -/
def exDBDisliked : DB :=
  ⟨[{ exArticle with dislikesCount := 1 }], [], [⟨5, "article", 1⟩],
    [⟨1, "other"⟩, ⟨2, "tech"⟩], [], [], []⟩

/-- Database holding one registered user. -/
def exDBUser : DB :=
  ⟨[], [], [], [], [⟨1, "ann@mail.co", "ann", "stored-hash", true⟩], [], []⟩

/-- The status codes the spec enumerates. -/
def specStatusCodes : List Nat := [200, 201, 401, 403, 404, 409, 422, 500]

/-- The status codes the controllers actually use (the spec's list plus 400). -/
def extStatusCodes : List Nat := [200, 201, 400, 401, 403, 404, 409, 422, 500]

/-- A signup request for a fresh user. -/
def exReq : CreateUserReq := ⟨"bob@x.io", "bob", "pw123", "UA", "web", "1.2.3.4"⟩

/-- A create-article body with a known category and valid tags. -/
def exCreateBody : CreateArticleBody :=
  ⟨"My Title", some "body text", some "publish", "tech", some "tech,business"⟩

/-- A create-article body with an unknown category and valid tags. -/
def exCreateBodyUnknownCat : CreateArticleBody :=
  ⟨"My Title", some "body text", some "publish", "Sports", some "tech,business"⟩

/-- A create-article body whose tags violate the minimum length. -/
def exCreateBodyBadTags : CreateArticleBody :=
  ⟨"My Title", some "body text", some "publish", "tech", some "a,b"⟩

/-- A title-only update body (no status, no articleBody). -/
def exUpdateBody : UpdateBody := ⟨some "New Title", none, none, none, none⟩

/-- An update body with an unknown category. -/
def exUpdateBodyCat : UpdateBody := ⟨none, none, none, some "Sports", some "tech"⟩

/-- An update body whose tags violate the minimum length. -/
def exUpdateBodyBadTags : UpdateBody := ⟨none, none, none, none, some "a,b"⟩

/-! ### Helper lemmas: filters -/

theorem filter_filter_of_imp {α : Type} (l : List α) (p q : α → Bool)
    (h : ∀ a, p a = true → q a = true) :
    (l.filter q).filter p = l.filter p := by
  rw [List.filter_filter]
  refine List.filter_congr ?_
  intro a _
  cases hp : p a with
  | false => simp
  | true => simp [h a hp]

theorem filter_filter_of_excl {α : Type} (l : List α) (p q : α → Bool)
    (h : ∀ a, p a = true → q a = false) :
    (l.filter q).filter p = [] := by
  rw [List.filter_filter]
  rw [List.filter_eq_nil_iff]
  intro a _
  cases hp : p a with
  | false => simp [hp]
  | true => simp [hp, h a hp]

/-! ### Helper lemmas: row-level effects of the Sequelize calls -/

theorem articles_destroyLike (db : DB) (u aid : Nat) :
    (destroyLike db u aid).articles = db.articles := rfl

theorem articles_destroyDislike (db : DB) (u aid : Nat) :
    (destroyDislike db u aid).articles = db.articles := rfl

theorem articles_createLike (db : DB) (u aid : Nat) :
    (createLike db u aid).articles = db.articles := rfl

theorem articles_createDislike (db : DB) (u aid : Nat) :
    (createDislike db u aid).articles = db.articles := rfl

theorem articles_updateArticleById (db : DB) (aid : Nat) (f : ArticleRow → ArticleRow) :
    (updateArticleById db aid f).articles
      = db.articles.map (fun a => if a.id == aid then f a else a) := rfl

theorem likesOf_updateArticleById (db : DB) (aid : Nat) (f : ArticleRow → ArticleRow)
    (x : Nat) : likesOf (updateArticleById db aid f) x = likesOf db x := rfl

theorem dislikesOf_updateArticleById (db : DB) (aid : Nat) (f : ArticleRow → ArticleRow)
    (x : Nat) : dislikesOf (updateArticleById db aid f) x = dislikesOf db x := rfl

theorem likesOf_destroyDislike (db : DB) (u aid x : Nat) :
    likesOf (destroyDislike db u aid) x = likesOf db x := rfl

theorem dislikesOf_destroyLike (db : DB) (u aid x : Nat) :
    dislikesOf (destroyLike db u aid) x = dislikesOf db x := rfl

theorem likesOf_createDislike (db : DB) (u aid x : Nat) :
    likesOf (createDislike db u aid) x = likesOf db x := rfl

theorem dislikesOf_createLike (db : DB) (u aid x : Nat) :
    dislikesOf (createLike db u aid) x = dislikesOf db x := rfl

theorem likesOf_destroyLike_ne (db : DB) (u aid x : Nat) (hx : x ≠ aid) :
    likesOf (destroyLike db u aid) x = likesOf db x := by
  simp only [likesOf, destroyLike]
  refine congrArg List.length (filter_filter_of_imp _ _ _ ?_)
  intro a ha
  simp only [Bool.and_eq_true, beq_iff_eq] at ha
  have h2 : (a.contentId == aid) = false := by simp [ha.1, hx]
  simp [h2]

theorem dislikesOf_destroyDislike_ne (db : DB) (u aid x : Nat) (hx : x ≠ aid) :
    dislikesOf (destroyDislike db u aid) x = dislikesOf db x := by
  simp only [dislikesOf, destroyDislike]
  refine congrArg List.length (filter_filter_of_imp _ _ _ ?_)
  intro a ha
  simp only [Bool.and_eq_true, beq_iff_eq] at ha
  have h2 : (a.contentId == aid) = false := by simp [ha.1, hx]
  simp [h2]

theorem likesOf_createLike_self (db : DB) (u aid : Nat) :
    likesOf (createLike db u aid) aid = likesOf db aid + 1 := by
  simp [likesOf, createLike, List.filter_append]

theorem likesOf_createLike_ne (db : DB) (u aid x : Nat) (hx : x ≠ aid) :
    likesOf (createLike db u aid) x = likesOf db x := by
  have h2 : (aid == x) = false := by simp [Ne.symm hx]
  simp [likesOf, createLike, List.filter_append, h2]

theorem dislikesOf_createDislike_ne (db : DB) (u aid x : Nat) (hx : x ≠ aid) :
    dislikesOf (createDislike db u aid) x = dislikesOf db x := by
  have h2 : (aid == x) = false := by simp [Ne.symm hx]
  simp [dislikesOf, createDislike, List.filter_append, h2]

theorem userLikesOn_updateArticleById (db : DB) (aid : Nat) (f : ArticleRow → ArticleRow)
    (u x : Nat) : userLikesOn (updateArticleById db aid f) u x = userLikesOn db u x := rfl

theorem userDislikesOn_updateArticleById (db : DB) (aid : Nat) (f : ArticleRow → ArticleRow)
    (u x : Nat) : userDislikesOn (updateArticleById db aid f) u x = userDislikesOn db u x := rfl

theorem userLikesOn_destroyDislike (db : DB) (u aid u' x : Nat) :
    userLikesOn (destroyDislike db u aid) u' x = userLikesOn db u' x := rfl

theorem userDislikesOn_destroyLike (db : DB) (u aid u' x : Nat) :
    userDislikesOn (destroyLike db u aid) u' x = userDislikesOn db u' x := rfl

theorem userLikesOn_createDislike (db : DB) (u aid u' x : Nat) :
    userLikesOn (createDislike db u aid) u' x = userLikesOn db u' x := rfl

theorem userDislikesOn_createLike (db : DB) (u aid u' x : Nat) :
    userDislikesOn (createLike db u aid) u' x = userDislikesOn db u' x := rfl

theorem userLikesOn_destroyLike_self (db : DB) (u aid : Nat) :
    userLikesOn (destroyLike db u aid) u aid = [] := by
  simp only [userLikesOn, destroyLike]
  refine filter_filter_of_excl _ _ _ ?_
  intro a ha
  simp only [Bool.and_eq_true, beq_iff_eq] at ha
  simp [ha.1.1, ha.1.2, ha.2]

theorem userDislikesOn_destroyDislike_self (db : DB) (u aid : Nat) :
    userDislikesOn (destroyDislike db u aid) u aid = [] := by
  simp only [userDislikesOn, destroyDislike]
  refine filter_filter_of_excl _ _ _ ?_
  intro a ha
  simp only [Bool.and_eq_true, beq_iff_eq] at ha
  simp [ha.1.1, ha.1.2, ha.2]

theorem userLikesOn_destroyLike_other (db : DB) (u aid u' x : Nat)
    (h : ¬(u' = u ∧ x = aid)) :
    userLikesOn (destroyLike db u aid) u' x = userLikesOn db u' x := by
  simp only [userLikesOn, destroyLike]
  refine filter_filter_of_imp _ _ _ ?_
  intro a ha
  simp only [Bool.and_eq_true, beq_iff_eq] at ha
  obtain ⟨⟨h1, h2⟩, h3⟩ := ha
  by_cases hu : u' = u
  · have hx : x ≠ aid := fun hxa => h ⟨hu, hxa⟩
    have : (a.contentId == aid) = false := by simp [h2, hx]
    simp [this]
  · have : (a.userId == u) = false := by simp [h1, hu]
    simp [this]

theorem userDislikesOn_destroyDislike_other (db : DB) (u aid u' x : Nat)
    (h : ¬(u' = u ∧ x = aid)) :
    userDislikesOn (destroyDislike db u aid) u' x = userDislikesOn db u' x := by
  simp only [userDislikesOn, destroyDislike]
  refine filter_filter_of_imp _ _ _ ?_
  intro a ha
  simp only [Bool.and_eq_true, beq_iff_eq] at ha
  obtain ⟨⟨h1, h2⟩, h3⟩ := ha
  by_cases hu : u' = u
  · have hx : x ≠ aid := fun hxa => h ⟨hu, hxa⟩
    have : (a.contentId == aid) = false := by simp [h2, hx]
    simp [this]
  · have : (a.userId == u) = false := by simp [h1, hu]
    simp [this]

theorem userLikesOn_createLike_self (db : DB) (u aid : Nat) :
    userLikesOn (createLike db u aid) u aid
      = userLikesOn db u aid ++ [⟨u, "article", aid⟩] := by
  simp [userLikesOn, createLike, List.filter_append]

theorem userDislikesOn_createDislike_self (db : DB) (u aid : Nat) :
    userDislikesOn (createDislike db u aid) u aid
      = userDislikesOn db u aid ++ [⟨u, "article", aid⟩] := by
  simp [userDislikesOn, createDislike, List.filter_append]

theorem userLikesOn_createLike_other (db : DB) (u aid u' x : Nat)
    (h : ¬(u' = u ∧ x = aid)) :
    userLikesOn (createLike db u aid) u' x = userLikesOn db u' x := by
  simp only [userLikesOn, createLike, List.filter_append]
  by_cases hu : u = u'
  · have hx : (aid == x) = false := by
      have : x ≠ aid := fun hxa => h ⟨hu.symm, hxa⟩
      simp [Ne.symm this]
    simp [hx]
  · have hu' : (u == u') = false := by simp [hu]
    simp [hu']

theorem userDislikesOn_createDislike_other (db : DB) (u aid u' x : Nat)
    (h : ¬(u' = u ∧ x = aid)) :
    userDislikesOn (createDislike db u aid) u' x = userDislikesOn db u' x := by
  simp only [userDislikesOn, createDislike, List.filter_append]
  by_cases hu : u = u'
  · have hx : (aid == x) = false := by
      have : x ≠ aid := fun hxa => h ⟨hu.symm, hxa⟩
      simp [Ne.symm this]
    simp [hx]
  · have hu' : (u == u') = false := by simp [hu]
    simp [hu']

/-! ### Count-consistency preservation -/

theorem countsConsistent_setLikes (db' : DB) (aid : Nat)
    (hne : ∀ a ∈ db'.articles, a.id ≠ aid →
      a.likesCount = likesOf db' a.id ∧ a.dislikesCount = dislikesOf db' a.id)
    (hd : ∀ a ∈ db'.articles, a.id = aid → a.dislikesCount = dislikesOf db' aid) :
    countsConsistent
      (updateArticleById db' aid (fun b => { b with likesCount := likesOf db' aid })) := by
  intro a ha
  rw [articles_updateArticleById] at ha
  obtain ⟨b, hb, rfl⟩ := List.mem_map.1 ha
  rw [likesOf_updateArticleById, dislikesOf_updateArticleById]
  by_cases hid : b.id = aid
  · simp only [hid, beq_self_eq_true, if_true]
    exact ⟨by simp [hid], by simpa using hd b hb hid⟩
  · have hfalse : (b.id == aid) = false := by simp [hid]
    simp only [hfalse, Bool.false_eq_true, if_false]
    exact hne b hb hid

theorem countsConsistent_setDislikes (db' : DB) (aid : Nat)
    (hne : ∀ a ∈ db'.articles, a.id ≠ aid →
      a.likesCount = likesOf db' a.id ∧ a.dislikesCount = dislikesOf db' a.id)
    (hl : ∀ a ∈ db'.articles, a.id = aid → a.likesCount = likesOf db' aid) :
    countsConsistent
      (updateArticleById db' aid (fun b => { b with dislikesCount := dislikesOf db' aid })) := by
  intro a ha
  rw [articles_updateArticleById] at ha
  obtain ⟨b, hb, rfl⟩ := List.mem_map.1 ha
  rw [likesOf_updateArticleById, dislikesOf_updateArticleById]
  by_cases hid : b.id = aid
  · simp only [hid, beq_self_eq_true, if_true]
    exact ⟨by simpa using hl b hb hid, by simp [hid]⟩
  · have hfalse : (b.id == aid) = false := by simp [hid]
    simp only [hfalse, Bool.false_eq_true, if_false]
    exact hne b hb hid

theorem countsConsistent_createLikeOrDislike (act : String) (u aid : Nat) (db : DB)
    (h : countsConsistent db) :
    countsConsistent (createLikeOrDislike act u aid db) := by
  unfold createLikeOrDislike
  split
  · refine countsConsistent_setLikes _ _ ?_ ?_
    · intro a ha hne
      rw [articles_createLike, articles_updateArticleById, articles_destroyDislike] at ha
      obtain ⟨b, hb, rfl⟩ := List.mem_map.1 ha
      by_cases hid : b.id = aid
      · exfalso
        apply hne
        simp [hid]
      · have hfalse : (b.id == aid) = false := by simp [hid]
        simp only [hfalse, Bool.false_eq_true, if_false] at hne ⊢
        constructor
        · rw [likesOf_createLike_ne _ _ _ _ hne, likesOf_updateArticleById,
            likesOf_destroyDislike]
          exact (h b hb).1
        · rw [dislikesOf_createLike, dislikesOf_updateArticleById,
            dislikesOf_destroyDislike_ne _ _ _ _ hne]
          exact (h b hb).2
    · intro a ha hid
      rw [articles_createLike, articles_updateArticleById, articles_destroyDislike] at ha
      obtain ⟨b, hb, rfl⟩ := List.mem_map.1 ha
      rw [dislikesOf_createLike, dislikesOf_updateArticleById]
      by_cases hb' : b.id = aid
      · simp [hb']
      · have hfalse : (b.id == aid) = false := by simp [hb']
        simp only [hfalse, Bool.false_eq_true, if_false] at hid
        exact absurd hid hb'
  · refine countsConsistent_setDislikes _ _ ?_ ?_
    · intro a ha hne
      rw [articles_createDislike, articles_updateArticleById, articles_destroyLike] at ha
      obtain ⟨b, hb, rfl⟩ := List.mem_map.1 ha
      by_cases hid : b.id = aid
      · exfalso
        apply hne
        simp [hid]
      · have hfalse : (b.id == aid) = false := by simp [hid]
        simp only [hfalse, Bool.false_eq_true, if_false] at hne ⊢
        constructor
        · rw [likesOf_createDislike, likesOf_updateArticleById,
            likesOf_destroyLike_ne _ _ _ _ hne]
          exact (h b hb).1
        · rw [dislikesOf_createDislike_ne _ _ _ _ hne, dislikesOf_updateArticleById,
            dislikesOf_destroyLike]
          exact (h b hb).2
    · intro a ha hid
      rw [articles_createDislike, articles_updateArticleById, articles_destroyLike] at ha
      obtain ⟨b, hb, rfl⟩ := List.mem_map.1 ha
      rw [likesOf_createDislike, likesOf_updateArticleById]
      by_cases hb' : b.id = aid
      · simp [hb']
      · have hfalse : (b.id == aid) = false := by simp [hb']
        simp only [hfalse, Bool.false_eq_true, if_false] at hid
        exact absurd hid hb'

theorem countsConsistent_addLike (u : Nat) (s : String) (db : DB)
    (h : countsConsistent db) : countsConsistent (Articles.addLike u s db).1 := by
  unfold Articles.addLike
  cases hfind : findBySlug db s with
  | none => simpa using h
  | some art =>
    by_cases hprev : ((userLikesOn db u art.id).length != 0) = true
    · simpa [hprev] using h
    · simp only [hprev, Bool.false_eq_true, if_false]
      exact countsConsistent_createLikeOrDislike "like" u art.id db h

theorem countsConsistent_addDislike (u : Nat) (s : String) (db : DB)
    (h : countsConsistent db) : countsConsistent (Articles.addDislike u s db).1 := by
  unfold Articles.addDislike
  cases hfind : findBySlug db s with
  | none => simpa using h
  | some art =>
    by_cases hprev : ((userDislikesOn db u art.id).length != 0) = true
    · simpa [hprev] using h
    · simp only [hprev, Bool.false_eq_true, if_false]
      exact countsConsistent_createLikeOrDislike "dislike" u art.id db h

theorem countsConsistent_removeLike (u : Nat) (s : String) (db : DB)
    (h : countsConsistent db) : countsConsistent (Articles.removeLike u s db).1 := by
  unfold Articles.removeLike
  cases hfind : findBySlug db s with
  | none => simpa using h
  | some art =>
    refine countsConsistent_setLikes _ _ ?_ ?_
    · intro a ha hne
      rw [articles_destroyLike] at ha
      rw [likesOf_destroyLike_ne _ _ _ _ hne, dislikesOf_destroyLike]
      exact h a ha
    · intro a ha hid
      rw [articles_destroyLike] at ha
      rw [dislikesOf_destroyLike]
      have h2 := (h a ha).2
      rwa [hid] at h2

theorem countsConsistent_removeDislike (u : Nat) (s : String) (db : DB)
    (h : countsConsistent db) : countsConsistent (Articles.removeDislike u s db).1 := by
  unfold Articles.removeDislike
  cases hfind : findBySlug db s with
  | none => simpa using h
  | some art =>
    refine countsConsistent_setDislikes _ _ ?_ ?_
    · intro a ha hne
      rw [articles_destroyDislike] at ha
      rw [dislikesOf_destroyDislike_ne _ _ _ _ hne, likesOf_destroyDislike]
      exact h a ha
    · intro a ha hid
      rw [articles_destroyDislike] at ha
      rw [likesOf_destroyDislike]
      have h2 := (h a ha).1
      rwa [hid] at h2

theorem countsConsistent_applyOp (o : Op) (db : DB) (h : countsConsistent db) :
    countsConsistent (applyOp o db) := by
  cases o with
  | like u s => exact countsConsistent_addLike u s db h
  | dislike u s => exact countsConsistent_addDislike u s db h
  | removeLike u s => exact countsConsistent_removeLike u s db h
  | removeDislike u s => exact countsConsistent_removeDislike u s db h

theorem removeLike_recalculates (u : Nat) (s : String) (db : DB) (art : ArticleRow)
    (hfind : findBySlug db s = some art) :
    ∀ a ∈ (Articles.removeLike u s db).1.articles, a.id = art.id →
      a.likesCount = likesOf (Articles.removeLike u s db).1 art.id := by
  unfold Articles.removeLike
  rw [hfind]
  intro a ha hid
  rw [likesOf_updateArticleById]
  rw [articles_updateArticleById, articles_destroyLike] at ha
  obtain ⟨b, hb, rfl⟩ := List.mem_map.1 ha
  by_cases hb' : b.id = art.id
  · simp [hb']
  · have hfalse : (b.id == art.id) = false := by simp [hb']
    simp only [hfalse, Bool.false_eq_true, if_false] at hid
    exact absurd hid hb'

/-! ### At-most-one-reaction preservation -/

theorem atMostOne_createLikeOrDislike_like (u aid : Nat) (db : DB)
    (h : atMostOneReaction db) (h0 : (userLikesOn db u aid).length = 0) :
    atMostOneReaction (createLikeOrDislike "like" u aid db) := by
  unfold createLikeOrDislike
  simp only [beq_self_eq_true, if_true]
  intro u' x
  by_cases hux : u' = u ∧ x = aid
  · obtain ⟨rfl, rfl⟩ := hux
    rw [userLikesOn_updateArticleById, userLikesOn_createLike_self,
      userLikesOn_updateArticleById, userLikesOn_destroyDislike,
      userDislikesOn_updateArticleById, userDislikesOn_createLike,
      userDislikesOn_updateArticleById, userDislikesOn_destroyDislike_self]
    simp [h0]
  · rw [userLikesOn_updateArticleById, userLikesOn_createLike_other _ _ _ _ _ hux,
      userLikesOn_updateArticleById, userLikesOn_destroyDislike,
      userDislikesOn_updateArticleById, userDislikesOn_createLike,
      userDislikesOn_updateArticleById, userDislikesOn_destroyDislike_other _ _ _ _ _ hux]
    exact h u' x

theorem atMostOne_createLikeOrDislike_dislike (u aid : Nat) (db : DB)
    (h : atMostOneReaction db) (h0 : (userDislikesOn db u aid).length = 0) :
    atMostOneReaction (createLikeOrDislike "dislike" u aid db) := by
  unfold createLikeOrDislike
  simp only [show ("dislike" == "like") = false from rfl, Bool.false_eq_true, if_false]
  intro u' x
  by_cases hux : u' = u ∧ x = aid
  · obtain ⟨rfl, rfl⟩ := hux
    rw [userDislikesOn_updateArticleById, userDislikesOn_createDislike_self,
      userDislikesOn_updateArticleById, userDislikesOn_destroyLike,
      userLikesOn_updateArticleById, userLikesOn_createDislike,
      userLikesOn_updateArticleById, userLikesOn_destroyLike_self]
    simp [h0]
  · rw [userDislikesOn_updateArticleById, userDislikesOn_createDislike_other _ _ _ _ _ hux,
      userDislikesOn_updateArticleById, userDislikesOn_destroyLike,
      userLikesOn_updateArticleById, userLikesOn_createDislike,
      userLikesOn_updateArticleById, userLikesOn_destroyLike_other _ _ _ _ _ hux]
    exact h u' x

theorem atMostOne_addLike (u : Nat) (s : String) (db : DB)
    (h : atMostOneReaction db) : atMostOneReaction (Articles.addLike u s db).1 := by
  unfold Articles.addLike
  cases hfind : findBySlug db s with
  | none => simpa using h
  | some art =>
    by_cases hprev : ((userLikesOn db u art.id).length != 0) = true
    · simpa [hprev] using h
    · simp only [hprev, Bool.false_eq_true, if_false]
      have h0 : (userLikesOn db u art.id).length = 0 := by
        simpa using hprev
      exact atMostOne_createLikeOrDislike_like u art.id db h h0

theorem atMostOne_addDislike (u : Nat) (s : String) (db : DB)
    (h : atMostOneReaction db) : atMostOneReaction (Articles.addDislike u s db).1 := by
  unfold Articles.addDislike
  cases hfind : findBySlug db s with
  | none => simpa using h
  | some art =>
    by_cases hprev : ((userDislikesOn db u art.id).length != 0) = true
    · simpa [hprev] using h
    · simp only [hprev, Bool.false_eq_true, if_false]
      have h0 : (userDislikesOn db u art.id).length = 0 := by
        simpa using hprev
      exact atMostOne_createLikeOrDislike_dislike u art.id db h h0

theorem atMostOne_removeLike (u : Nat) (s : String) (db : DB)
    (h : atMostOneReaction db) : atMostOneReaction (Articles.removeLike u s db).1 := by
  unfold Articles.removeLike
  cases hfind : findBySlug db s with
  | none => simpa using h
  | some art =>
    intro u' x
    rw [userLikesOn_updateArticleById, userDislikesOn_updateArticleById,
      userDislikesOn_destroyLike]
    by_cases hux : u' = u ∧ x = art.id
    · obtain ⟨rfl, rfl⟩ := hux
      rw [userLikesOn_destroyLike_self]
      have := h u' art.id
      simp only [List.length_nil]
      omega
    · rw [userLikesOn_destroyLike_other _ _ _ _ _ hux]
      exact h u' x

theorem atMostOne_removeDislike (u : Nat) (s : String) (db : DB)
    (h : atMostOneReaction db) : atMostOneReaction (Articles.removeDislike u s db).1 := by
  unfold Articles.removeDislike
  cases hfind : findBySlug db s with
  | none => simpa using h
  | some art =>
    intro u' x
    rw [userDislikesOn_updateArticleById, userLikesOn_updateArticleById,
      userLikesOn_destroyDislike]
    by_cases hux : u' = u ∧ x = art.id
    · obtain ⟨rfl, rfl⟩ := hux
      rw [userDislikesOn_destroyDislike_self]
      have := h u' art.id
      simp only [List.length_nil]
      omega
    · rw [userDislikesOn_destroyDislike_other _ _ _ _ _ hux]
      exact h u' x

theorem atMostOne_applyOp (o : Op) (db : DB) (h : atMostOneReaction db) :
    atMostOneReaction (applyOp o db) := by
  cases o with
  | like u s => exact atMostOne_addLike u s db h
  | dislike u s => exact atMostOne_addDislike u s db h
  | removeLike u s => exact atMostOne_removeLike u s db h
  | removeDislike u s => exact atMostOne_removeDislike u s db h

theorem atMostOne_applyOps (ops : List Op) (db : DB) (h : atMostOneReaction db) :
    atMostOneReaction (applyOps ops db) := by
  induction ops generalizing db with
  | nil => simpa [applyOps] using h
  | cons o rest ih =>
    simp only [applyOps, List.foldl_cons]
    exact ih (applyOp o db) (atMostOne_applyOp o db h)

theorem removeDislike_recalculates (u : Nat) (s : String) (db : DB) (art : ArticleRow)
    (hfind : findBySlug db s = some art) :
    ∀ a ∈ (Articles.removeDislike u s db).1.articles, a.id = art.id →
      a.dislikesCount = dislikesOf (Articles.removeDislike u s db).1 art.id := by
  unfold Articles.removeDislike
  rw [hfind]
  intro a ha hid
  rw [dislikesOf_updateArticleById]
  rw [articles_updateArticleById, articles_destroyDislike] at ha
  obtain ⟨b, hb, rfl⟩ := List.mem_map.1 ha
  by_cases hb' : b.id = art.id
  · simp [hb']
  · have hfalse : (b.id == art.id) = false := by simp [hb']
    simp only [hfalse, Bool.false_eq_true, if_false] at hid
    exact absurd hid hb'

theorem addLike_reaction_state (u : Nat) (s : String) (db : DB) (art : ArticleRow)
    (hfind : findBySlug db s = some art)
    (h0 : (userLikesOn db u art.id).length = 0) :
    userDislikesOn (Articles.addLike u s db).1 u art.id = []
      ∧ (userLikesOn (Articles.addLike u s db).1 u art.id).length = 1 := by
  unfold Articles.addLike
  rw [hfind]
  have hprev : ((userLikesOn db u art.id).length != 0) = false := by simp [h0]
  simp only [hprev, Bool.false_eq_true, if_false]
  unfold createLikeOrDislike
  simp only [beq_self_eq_true, if_true]
  constructor
  · rw [userDislikesOn_updateArticleById, userDislikesOn_createLike,
      userDislikesOn_updateArticleById, userDislikesOn_destroyDislike_self]
  · rw [userLikesOn_updateArticleById, userLikesOn_createLike_self,
      userLikesOn_updateArticleById, userLikesOn_destroyDislike]
    simp [h0]

theorem addDislike_reaction_state (u : Nat) (s : String) (db : DB) (art : ArticleRow)
    (hfind : findBySlug db s = some art)
    (h0 : (userDislikesOn db u art.id).length = 0) :
    userLikesOn (Articles.addDislike u s db).1 u art.id = []
      ∧ (userDislikesOn (Articles.addDislike u s db).1 u art.id).length = 1 := by
  unfold Articles.addDislike
  rw [hfind]
  have hprev : ((userDislikesOn db u art.id).length != 0) = false := by simp [h0]
  simp only [hprev, Bool.false_eq_true, if_false]
  unfold createLikeOrDislike
  simp only [show ("dislike" == "like") = false from rfl, Bool.false_eq_true, if_false]
  constructor
  · rw [userLikesOn_updateArticleById, userLikesOn_createDislike,
      userLikesOn_updateArticleById, userLikesOn_destroyLike_self]
  · rw [userDislikesOn_updateArticleById, userDislikesOn_createDislike_self,
      userDislikesOn_updateArticleById, userDislikesOn_destroyLike]
    simp [h0]

theorem atMostOneReaction_exDB : atMostOneReaction exDB := by
  intro u a
  simp [userLikesOn, userDislikesOn, exDB]

/-! ### Helper lemmas: tag parsing and association -/

theorem checkTags_status (x : Option (Option (List TagRec))) (p : Nat × Body)
    (h : Articles.checkTags x = some p) : p.1 = 400 := by
  cases x with
  | none => simp [Articles.checkTags] at h
  | some ct =>
    cases ct with
    | none =>
      simp only [Articles.checkTags, Articles.canTag] at h
      cases h
      rfl
    | some arr =>
      cases arr with
      | nil =>
        simp only [Articles.checkTags, Articles.canTag] at h
        cases h
        rfl
      | cons t ts =>
        simp only [Articles.checkTags, Articles.canTag] at h
        split at h
        · cases h
          rfl
        · exact absurd h (by simp)

theorem splitCommaAux_no_comma : ∀ (l acc : List Char), ',' ∉ l →
    splitCommaAux l acc = [acc.reverse ++ l]
  | [], acc, _ => by simp [splitCommaAux]
  | c :: rest, acc, h => by
    have hc : ¬(c = ',') := fun hcc => h (by simp [hcc])
    have hr :
        ',' ∉ rest := fun hm => h (by simp [hm])
    rw [splitCommaAux, if_neg hc, splitCommaAux_no_comma rest (c :: acc) hr]
    simp

theorem splitCommaAux_append (l₂ : List Char) (h : ',' ∉ l₂) :
    ∀ (l₁ acc : List Char),
      splitCommaAux (l₁ ++ ',' :: l₂) acc = splitCommaAux l₁ acc ++ [l₂]
  | [], acc => by
    simp [splitCommaAux, splitCommaAux_no_comma l₂ [] h]
  | c :: rest, acc => by
    by_cases hc : c = ','
    · subst hc
      simp [splitCommaAux, splitCommaAux_append l₂ h rest []]
    · simp [splitCommaAux, hc, splitCommaAux_append l₂ h rest (c :: acc)]

theorem splitComma_append (t c : String) (h : ',' ∉ c.data) :
    splitComma (t ++ "," ++ c) = splitComma t ++ [c] := by
  unfold splitComma
  have hdata : (t ++ "," ++ c).data = t.data ++ ',' :: c.data := by
    rw [String.data_append, String.data_append]
    simp
  rw [hdata, splitCommaAux_append c.data h t.data [], List.map_append]
  simp

theorem tagsCreate_mem (t c : String) (l : List TagRec) (h : ',' ∉ c.data)
    (hc : Tags.create (t ++ "," ++ c) = some l) : c ∈ l.map TagRec.name := by
  simp only [Tags.create] at hc
  split at hc
  · exact absurd hc (by simp)
  · cases hc
    rw [List.map_map]
    have hcomp : (TagRec.name ∘ fun p : Nat × String => TagRec.mk (p.1 + 1) p.2)
        = Prod.snd := rfl
    rw [hcomp, List.enum_map_snd, List.mem_dedup, splitComma_append t c h]
    exact List.mem_append.2 (Or.inr (by simp))

theorem tagsCreate_valid (s : String) (l : List TagRec) (h : Tags.create s = some l) :
    (l.map TagRec.name).Nodup ∧ l.length ≤ 15 ∧ ∀ t ∈ l, 2 ≤ t.name.length := by
  simp only [Tags.create] at h
  split at h
  · exact absurd h (by simp)
  · rename_i hguard
    simp only [Bool.or_eq_true, decide_eq_true_eq, List.any_eq_true, not_or] at hguard
    push_neg at hguard
    obtain ⟨hlen, hshort⟩ := hguard
    cases h
    have hnames : ((((splitComma s).dedup).enum.map
        (fun p : Nat × String => TagRec.mk (p.1 + 1) p.2)).map TagRec.name)
        = (splitComma s).dedup := by
      rw [List.map_map]
      have hcomp : (TagRec.name ∘ fun p : Nat × String => TagRec.mk (p.1 + 1) p.2)
          = Prod.snd := rfl
      rw [hcomp, List.enum_map_snd]
    refine ⟨?_, ?_, ?_⟩
    · rw [hnames]
      exact List.nodup_dedup _
    · rw [List.length_map, List.enum_length]
      omega
    · intro t ht
      have hmem : t.name ∈ (splitComma s).dedup := by
        rw [← hnames]
        exact List.mem_map_of_mem TagRec.name ht
      exact hshort t.name hmem

theorem tagsCreate_none_iff (s : String) :
    Tags.create s = none ↔
      (15 < (splitComma s).dedup.length ∨ ∃ n ∈ (splitComma s).dedup, n.length < 2) := by
  simp only [Tags.create]
  split <;> rename_i hg
  · simp only [eq_self_iff_true, true_iff]
    simpa using hg
  · simp only [Bool.or_eq_true, decide_eq_true_eq, List.any_eq_true, not_or] at hg
    push_neg at hg
    constructor
    · intro hcontra
      exact absurd hcontra (by simp)
    · intro hdisj
      exfalso
      rcases hdisj with hlen | ⟨n, hn, hshort⟩
      · exact absurd hlen (by omega)
      · have := hg.2 n hn
        omega

theorem splitCommaAux_ne_nil : ∀ (l acc : List Char), splitCommaAux l acc ≠ []
  | [], acc => by simp [splitCommaAux]
  | c :: rest, acc => by
    by_cases hc : c = ','
    · simp [splitCommaAux, hc]
    · simp only [splitCommaAux, if_neg hc]
      exact splitCommaAux_ne_nil rest (c :: acc)

theorem canTag_tagsCreate (s : String) (l : List TagRec) (h : Tags.create s = some l) :
    Articles.canTag (some l) = none := by
  simp only [Tags.create] at h
  split at h
  · exact absurd h (by simp)
  · cases h
    have hne : (splitComma s).dedup ≠ [] := by
      cases hsc : splitComma s with
      | nil => exact absurd hsc (by unfold splitComma; simp [splitCommaAux_ne_nil])
      | cons a as =>
        have hmem : a ∈ (a :: as).dedup := by
          rw [List.mem_dedup]
          simp
        exact List.ne_nil_of_mem hmem
    obtain ⟨n0, rest, hcons⟩ := List.exists_cons_of_ne_nil hne
    rw [hcons]
    simp [Articles.canTag, List.enum_cons]

theorem truthyStr_append_comma (t c : String) :
    truthyStr (some (t ++ "," ++ c)) = some (t ++ "," ++ c) := by
  unfold truthyStr
  have hne : ((t ++ "," ++ c) == "") = false := by
    refine beq_eq_false_iff_ne.2 ?_
    intro hcc
    have hd : (t ++ "," ++ c).data = [] := by rw [hcc]
    rw [String.data_append, String.data_append] at hd
    simp at hd
  simp [hne]

theorem articles_associateArticle (aid : Nat) (t : Option (List TagRec)) (db : DB) :
    (Tags.associateArticle aid t db).1.articles = db.articles := by
  cases t <;> rfl

theorem articleTags_associateArticle_mem (aid : Nat) (recs : List TagRec) (db : DB)
    (n : String) (h : n ∈ recs.map TagRec.name) :
    (aid, n) ∈ (Tags.associateArticle aid (some recs) db).1.articleTags := by
  simp only [Tags.associateArticle]
  by_cases hc : db.articleTags.contains (aid, n)
  · refine List.mem_append.2 (Or.inl ?_)
    simpa using hc
  · refine List.mem_append.2 (Or.inr ?_)
    refine List.mem_map.2 ⟨n, ?_, rfl⟩
    refine List.mem_filter.2 ⟨h, ?_⟩
    have hfalse : db.articleTags.contains (aid, n) = false := by
      cases hcc : db.articleTags.contains (aid, n)
      · rfl
      · exact absurd hcc hc
    simp only [Bool.not_eq_true']
    exact hfalse

/-! ## Claim theorems -/

/-- C1: after any complete like, dislike, remove-like, or remove-dislike
operation (on a database whose stored counters matched the rows beforehand),
every article row's `likesCount` equals the number of `Like` rows for it and
its `dislikesCount` the number of `Dislike` rows; and, in particular, removing
a like always recalculates the operated article's `likesCount` to match the
remaining `Like` rows (no precondition needed), and removing a dislike does
the same for `dislikesCount`. -/
theorem counts_match_rows_after_ops :
    (∀ o : Op, ∀ db : DB, countsConsistent db → countsConsistent (applyOp o db))
    ∧ (∀ (u : Nat) (s : String) (db : DB) (art : ArticleRow),
        findBySlug db s = some art →
        ∀ a ∈ (Articles.removeLike u s db).1.articles, a.id = art.id →
          a.likesCount = likesOf (Articles.removeLike u s db).1 art.id)
    ∧ (∀ (u : Nat) (s : String) (db : DB) (art : ArticleRow),
        findBySlug db s = some art →
        ∀ a ∈ (Articles.removeDislike u s db).1.articles, a.id = art.id →
          a.dislikesCount = dislikesOf (Articles.removeDislike u s db).1 art.id) :=
  ⟨countsConsistent_applyOp, removeLike_recalculates, removeDislike_recalculates⟩

theorem counts_match_rows_after_ops_witness :
    countsConsistent (applyOp (.like 5 "s1") exDB)
    ∧ ({ exArticle with likesCount := 0 } : ArticleRow).likesCount
        = likesOf (Articles.removeLike 5 "s1" exDBLiked).1 1 :=
  ⟨counts_match_rows_after_ops.1 (.like 5 "s1") exDB (by decide),
    counts_match_rows_after_ops.2.1 5 "s1" exDBLiked { exArticle with likesCount := 1 }
      (by decide) { exArticle with likesCount := 0 } (by decide) (by decide)⟩

/-- C2: starting from a state where each user holds at most one like-or-dislike
row per article (for instance the empty database), any sequence of addLike,
addDislike, removeLike, removeDislike operations preserves that bound; and a
successful addLike leaves the acting user with zero dislike rows and exactly
one like row on the article (the dislike is deleted before the like is
created), symmetrically for addDislike. -/
theorem at_most_one_reaction_per_user :
    (∀ (ops : List Op) (db : DB), atMostOneReaction db → atMostOneReaction (applyOps ops db))
    ∧ (∀ (u : Nat) (s : String) (db : DB) (art : ArticleRow),
        findBySlug db s = some art → (userLikesOn db u art.id).length = 0 →
        userDislikesOn (Articles.addLike u s db).1 u art.id = []
          ∧ (userLikesOn (Articles.addLike u s db).1 u art.id).length = 1)
    ∧ (∀ (u : Nat) (s : String) (db : DB) (art : ArticleRow),
        findBySlug db s = some art → (userDislikesOn db u art.id).length = 0 →
        userLikesOn (Articles.addDislike u s db).1 u art.id = []
          ∧ (userDislikesOn (Articles.addDislike u s db).1 u art.id).length = 1) :=
  ⟨atMostOne_applyOps, addLike_reaction_state, addDislike_reaction_state⟩

theorem at_most_one_reaction_per_user_witness :
    atMostOneReaction
      (applyOps [.like 5 "s1", .dislike 5 "s1", .like 5 "s1", .removeLike 5 "s1"] exDB)
    ∧ (userDislikesOn (Articles.addLike 5 "s1" exDBDisliked).1 5 1 = []
        ∧ (userLikesOn (Articles.addLike 5 "s1" exDBDisliked).1 5 1).length = 1) :=
  ⟨at_most_one_reaction_per_user.1 _ exDB atMostOneReaction_exDB,
    at_most_one_reaction_per_user.2.1 5 "s1" exDBDisliked
      { exArticle with dislikesCount := 1 } (by decide) (by decide)⟩

/-- C3: when the requesting user already has a like row on the article, addLike
answers 200 with exactly "you have already liked this article" and leaves the
database untouched (no second row, no count change); symmetrically addDislike
answers "you have already disliked this article". -/
theorem already_reacted_returns_200 :
    (∀ (u : Nat) (s : String) (db : DB) (art : ArticleRow),
      findBySlug db s = some art → (userLikesOn db u art.id).length ≠ 0 →
      Articles.addLike u s db
        = (db, serverResponse 200 (Body.msg "you have already liked this article")))
    ∧ (∀ (u : Nat) (s : String) (db : DB) (art : ArticleRow),
      findBySlug db s = some art → (userDislikesOn db u art.id).length ≠ 0 →
      Articles.addDislike u s db
        = (db, serverResponse 200 (Body.msg "you have already disliked this article"))) := by
  constructor
  · intro u s db art hfind h
    unfold Articles.addLike
    rw [hfind]
    have hprev : ((userLikesOn db u art.id).length != 0) = true := by simpa using h
    simp [hprev]
  · intro u s db art hfind h
    unfold Articles.addDislike
    rw [hfind]
    have hprev : ((userDislikesOn db u art.id).length != 0) = true := by simpa using h
    simp [hprev]

theorem already_reacted_returns_200_witness :
    Articles.addLike 5 "s1" exDBLiked
      = (exDBLiked, serverResponse 200 (Body.msg "you have already liked this article"))
    ∧ Articles.addDislike 5 "s1" exDBDisliked
      = (exDBDisliked, serverResponse 200 (Body.msg "you have already disliked this article")) :=
  ⟨already_reacted_returns_200.1 5 "s1" exDBLiked { exArticle with likesCount := 1 }
      (by decide) (by decide),
    already_reacted_returns_200.2 5 "s1" exDBDisliked { exArticle with dislikesCount := 1 }
      (by decide) (by decide)⟩

/-- C6: when the submitted email already belongs to a user, `Users.create`
answers 409 with the taken-email error and leaves the database untouched — in
particular no User row and no Session row is created. -/
theorem taken_email_returns_409 :
    ∀ (hashResult : Except Unit String) (token : String) (expiresAt : Nat)
      (req : CreateUserReq) (db : DB) (u : UserRow),
      findByEmail db req.email = some u →
      Users.create hashResult token expiresAt req db
        = (db, serverResponse 409 (Body.err "email has already been taken")) := by
  intro hashResult token expiresAt req db u h
  unfold Users.create
  rw [h]

theorem taken_email_returns_409_witness :
    Users.create (Except.ok "hashed") "tok" 99
        ⟨"ann@mail.co", "ann2", "pw", "UA", "web", "ip"⟩ exDBUser
      = (exDBUser, serverResponse 409 (Body.err "email has already been taken")) :=
  taken_email_returns_409 (Except.ok "hashed") "tok" 99
    ⟨"ann@mail.co", "ann2", "pw", "UA", "web", "ip"⟩ exDBUser
    ⟨1, "ann@mail.co", "ann", "stored-hash", true⟩ (by decide)

/-- C10: a successful user creation stores exactly one new User row whose
password field is the value returned by `bcrypt.hash` (not the submitted
plaintext, whenever the hash differs from it), and the 201 response's user
object carries no password field (`none` after the controller's delete). -/
theorem created_user_password_hashed :
    ∀ (h token : String) (expiresAt : Nat) (req : CreateUserReq) (db : DB),
      findByEmail db req.email = none →
      findByUsername db req.userName = none →
      ((Users.create (Except.ok h) token expiresAt req db).1.users
          = db.users ++ [⟨nextUserId db, req.email, req.userName, h, false⟩])
      ∧ (Users.create (Except.ok h) token expiresAt req db).2
          = serverResponse 201 (Body.user (nextUserId db) req.email req.userName none token)
      ∧ (h ≠ req.password →
          ∀ u ∈ (Users.create (Except.ok h) token expiresAt req db).1.users,
            u.email = req.email → u.password ≠ req.password) := by
  intro h token expiresAt req db h1 h2
  unfold Users.create
  rw [h1, h2]
  refine ⟨rfl, rfl, ?_⟩
  intro hne u hu hemail
  rcases List.mem_append.1 hu with hin | hin
  · exfalso
    have hnone := List.find?_eq_none.1 h1 u hin
    simp [hemail] at hnone
  · have : u = ⟨nextUserId db, req.email, req.userName, h, false⟩ := by
      simpa using hin
    rw [this]
    exact hne

theorem created_user_password_hashed_witness :
    ((Users.create (Except.ok "$2a$10$abc") "tok" 99 exReq exDB).1.users
        = exDB.users ++ [⟨1, "bob@x.io", "bob", "$2a$10$abc", false⟩])
    ∧ (Users.create (Except.ok "$2a$10$abc") "tok" 99 exReq exDB).2
        = serverResponse 201 (Body.user 1 "bob@x.io" "bob" none "tok") :=
  ⟨(created_user_password_hashed "$2a$10$abc" "tok" 99 exReq exDB
      (by decide) (by decide)).1,
    (created_user_password_hashed "$2a$10$abc" "tok" 99 exReq exDB
      (by decide) (by decide)).2.1⟩

/-- C7 counterexample: `changePassword` has no try/catch, so when the
`bcrypt.hash` call throws, the exception propagates out of the controller
(`Except.error`) instead of yielding any response — refuting the claim that
every controller operation maps unexpected exceptions to a 500. -/
theorem changePassword_propagates_exception :
    Users.changePassword (Except.error ()) 1 exDBUser = Except.error () := rfl

/-- C7 (amended): every controller operation except `changePassword` wraps its
body in a catch-all mapping an unexpected exception to the generic 500 —
shown here for the modelled fallible steps of `Users.create` (bcrypt.hash) and
`Articles.createArticle` (imageUpload) — while `changePassword`, which lacks
the catch-all, propagates the exception. -/
theorem catch_all_maps_exceptions_to_500 :
    (∀ (e : Unit) (token : String) (expiresAt : Nat) (req : CreateUserReq) (db : DB),
      findByEmail db req.email = none → findByUsername db req.userName = none →
      Users.create (Except.error e) token expiresAt req db = (db, serverError))
    ∧ (∀ (e : Unit) (authorId now : Nat) (body : CreateArticleBody) (db : DB)
        (cd : CategoryRow),
        categoryResolve db (toLowerStr body.category) = some cd →
        Articles.checkTags
          ((truthyStr (appendCategoryTag cd (toLowerStr body.category) body.tags)).map
            Tags.create) = none →
        Articles.createArticle (some (Except.error e)) authorId now body db
          = (db, serverError))
    ∧ (∀ (e : Unit) (userId : Nat) (db : DB),
        Users.changePassword (Except.error e) userId db = Except.error e) := by
  refine ⟨?_, ?_, ?_⟩
  · intro e token expiresAt req db h1 h2
    unfold Users.create
    rw [h1, h2]
  · intro e authorId now body db cd h1 h2
    unfold Articles.createArticle
    simp only [h1, h2]
    rfl
  · intro e userId db
    rfl

/-- C5: a tag string accepted by `Tags.create` yields a deduplicated list of at
most 15 tags, each of length at least 2; `Tags.create` rejects exactly the
strings violating the cap or the minimum length; and on rejection both
`createArticle` and `update` answer 400 with the tag error and leave the
database unchanged (no article created or updated). `Tags.create` itself is
modelled from the spec because the Tags controller is not under `src/`. -/
theorem tags_deduplicated_capped_minlength :
    (∀ (s : String) (l : List TagRec), Tags.create s = some l →
      (l.map TagRec.name).Nodup ∧ l.length ≤ 15 ∧ ∀ t ∈ l, 2 ≤ t.name.length)
    ∧ (∀ s : String, Tags.create s = none ↔
        (15 < (splitComma s).dedup.length ∨ ∃ n ∈ (splitComma s).dedup, n.length < 2))
    ∧ (∀ (file : Option (Except Unit String)) (authorId now : Nat)
        (body : CreateArticleBody) (db : DB) (cd : CategoryRow) (t : String),
        categoryResolve db (toLowerStr body.category) = some cd →
        truthyStr (appendCategoryTag cd (toLowerStr body.category) body.tags) = some t →
        Tags.create t = none →
        Articles.createArticle file authorId now body db
          = (db, serverResponse 400 (Body.err
              "tags cannot be more than 15 and each tag must be more than a character")))
    ∧ (∀ (file : Option (Except Unit String)) (authorId : Nat) (slug : String)
        (now : Nat) (body : UpdateBody) (db : DB) (articleDetails : ArticleRow)
        (tags' : Option String) (catId : Nat) (t : String),
        findBySlug db slug = some articleDetails →
        articleDetails.isArchived = false →
        Articles.updateCategoryStep body articleDetails db = some (tags', catId) →
        truthyStr tags' = some t →
        Tags.create t = none →
        Articles.update file authorId slug now body db
          = (db, serverResponse 400 (Body.err
              "tags cannot be more than 15 and each tag must be more than a character"))) := by
  refine ⟨tagsCreate_valid, tagsCreate_none_iff, ?_, ?_⟩
  · intro file authorId now body db cd t h1 h2 h3
    unfold Articles.createArticle
    simp only [h1, h2, h3, Option.map_some']
    rfl
  · intro file authorId slug now body db articleDetails tags' catId t
      hfind harch hcat htruthy hTC
    have hemp : body.isEmpty = false := by
      cases hbc : truthyStr body.category with
      | some c0 =>
        cases hcfield : body.category with
        | none =>
          rw [hcfield] at hbc
          simp [truthyStr] at hbc
        | some c =>
          unfold UpdateBody.isEmpty
          simp [hcfield]
      | none =>
        unfold Articles.updateCategoryStep at hcat
        rw [hbc] at hcat
        simp only [Option.some.injEq, Prod.mk.injEq] at hcat
        cases hbt : body.tags with
        | none =>
          rw [← hcat.1, hbt] at htruthy
          simp [truthyStr] at htruthy
        | some x =>
          unfold UpdateBody.isEmpty
          simp [hbt]
    simp only [Articles.update, hemp, Bool.false_eq_true, if_false]
    unfold Articles.updateRest
    simp only [hfind, harch, Bool.false_eq_true, if_false, hcat, htruthy,
      Option.map_some', hTC]
    rfl

theorem tags_deduplicated_capped_minlength_witness :
    (([⟨1, "tech"⟩, ⟨2, "business"⟩] : List TagRec).map TagRec.name).Nodup
    ∧ Tags.create "a,b" = none
    ∧ Articles.createArticle none 7 100 exCreateBodyBadTags exDB
        = (exDB, serverResponse 400 (Body.err
            "tags cannot be more than 15 and each tag must be more than a character"))
    ∧ Articles.update none 7 "s1" 100 exUpdateBodyBadTags exDB
        = (exDB, serverResponse 400 (Body.err
            "tags cannot be more than 15 and each tag must be more than a character")) :=
  ⟨(tags_deduplicated_capped_minlength.1 "tech,business" [⟨1, "tech"⟩, ⟨2, "business"⟩]
      (by decide)).1,
    (tags_deduplicated_capped_minlength.2.1 "a,b").mpr (by decide),
    tags_deduplicated_capped_minlength.2.2.1 none 7 100 exCreateBodyBadTags exDB
      ⟨2, "tech"⟩ "a,b" (by decide) (by decide) (by decide),
    tags_deduplicated_capped_minlength.2.2.2 none 7 "s1" 100 exUpdateBodyBadTags exDB
      exArticle (some "a,b") 1 "a,b"
      (by decide) (by decide) (by decide) (by decide) (by decide)⟩

theorem addLike_status (u : Nat) (s : String) (db : DB) :
    (Articles.addLike u s db).2.status ∈ extStatusCodes := by
  unfold Articles.addLike
  cases hfind : findBySlug db s with
  | none => simp [serverResponse, extStatusCodes]
  | some art =>
    by_cases hprev : ((userLikesOn db u art.id).length != 0) = true
    · simp [hprev, serverResponse, extStatusCodes]
    · simp [hprev, customArticleResponse, serverResponse, extStatusCodes]

theorem addDislike_status (u : Nat) (s : String) (db : DB) :
    (Articles.addDislike u s db).2.status ∈ extStatusCodes := by
  unfold Articles.addDislike
  cases hfind : findBySlug db s with
  | none => simp [serverResponse, extStatusCodes]
  | some art =>
    by_cases hprev : ((userDislikesOn db u art.id).length != 0) = true
    · simp [hprev, serverResponse, extStatusCodes]
    · simp [hprev, customArticleResponse, serverResponse, extStatusCodes]

theorem removeLike_status (u : Nat) (s : String) (db : DB) :
    (Articles.removeLike u s db).2.status ∈ extStatusCodes := by
  unfold Articles.removeLike
  cases hfind : findBySlug db s with
  | none => simp [serverResponse, extStatusCodes]
  | some art => simp [customArticleResponse, serverResponse, extStatusCodes]

theorem removeDislike_status (u : Nat) (s : String) (db : DB) :
    (Articles.removeDislike u s db).2.status ∈ extStatusCodes := by
  unfold Articles.removeDislike
  cases hfind : findBySlug db s with
  | none => simp [serverResponse, extStatusCodes]
  | some art => simp [customArticleResponse, serverResponse, extStatusCodes]

theorem createArticle_status (file : Option (Except Unit String)) (authorId now : Nat)
    (body : CreateArticleBody) (db : DB) :
    (Articles.createArticle file authorId now body db).2.status ∈ extStatusCodes := by
  unfold Articles.createArticle
  cases hres : categoryResolve db (toLowerStr body.category) with
  | none => simp [hres, serverError, extStatusCodes]
  | some cd =>
    cases hct : Articles.checkTags
        ((truthyStr (appendCategoryTag cd (toLowerStr body.category) body.tags)).map
          Tags.create) with
    | some p =>
      obtain ⟨st, b⟩ := p
      have h400 := checkTags_status _ (st, b) hct
      simp only at h400
      simp [hres, hct, serverResponse, extStatusCodes, h400]
    | none =>
      cases him : Articles.imageResult file with
      | error e => simp [hres, hct, him, serverError, extStatusCodes]
      | ok image => simp [hres, hct, him, serverResponse, extStatusCodes]

theorem update_status (file : Option (Except Unit String)) (authorId : Nat)
    (slug : String) (now : Nat) (body : UpdateBody) (db : DB) :
    (Articles.update file authorId slug now body db).2.status ∈ extStatusCodes := by
  unfold Articles.update
  cases hemp : body.isEmpty with
  | true => simp [hemp, serverResponse, extStatusCodes]
  | false =>
    simp only [hemp, Bool.false_eq_true, if_false]
    unfold Articles.updateRest
    cases hfind : findBySlug db slug with
    | none => simp [hfind, serverResponse, extStatusCodes]
    | some articleDetails =>
      simp only [hfind]
      cases harch : articleDetails.isArchived with
      | true => simp [harch, serverResponse, extStatusCodes]
      | false =>
        simp only [harch, Bool.false_eq_true, if_false]
        cases hcat : Articles.updateCategoryStep body articleDetails db with
        | none => simp [hcat, serverError, extStatusCodes]
        | some pr =>
          obtain ⟨tags', catId⟩ := pr
          simp only [hcat]
          cases hct : Articles.checkTags ((truthyStr tags').map Tags.create) with
          | some p =>
            obtain ⟨st, b⟩ := p
            have h400 := checkTags_status _ (st, b) hct
            simp only at h400
            simp [hct, serverResponse, extStatusCodes, h400]
          | none =>
            simp only [hct]
            cases him : Articles.imageResult file with
            | error e => simp [him, serverError, extStatusCodes]
            | ok image =>
              simp only [him]
              split
              · simp [serverResponse, extStatusCodes]
              · simp [serverResponse, extStatusCodes]

theorem usersCreate_status (hashResult : Except Unit String) (token : String)
    (expiresAt : Nat) (req : CreateUserReq) (db : DB) :
    (Users.create hashResult token expiresAt req db).2.status ∈ extStatusCodes := by
  unfold Users.create
  cases h1 : findByEmail db req.email with
  | some u => simp [h1, serverResponse, extStatusCodes]
  | none =>
    cases h2 : findByUsername db req.userName with
    | some u => simp [h1, h2, serverResponse, extStatusCodes]
    | none =>
      cases hashResult with
      | error e => simp [h1, h2, serverError, extStatusCodes]
      | ok hp => simp [h1, h2, serverResponse, extStatusCodes]

/-- C8 is refuted: the tag-validation error path answers status 400, which is
not among the status codes the spec enumerates
(200/201/401/403/404/409/422/500). -/
theorem tag_error_status_outside_spec_list :
    (Articles.createArticle none 7 100 exCreateBodyBadTags exDB).2.status = 400
    ∧ 400 ∉ specStatusCodes := by
  constructor
  · rfl
  · decide

/-- C8 (amended): every response the embedded controllers produce carries a
status code from the conventional list extended with 400
(200/201/400/401/403/404/409/422/500); success bodies may also be bare
resource objects rather than `\x7bmessage, ...\x7d` envelopes. -/
theorem responses_use_conventional_status_codes :
    (∀ (u : Nat) (s : String) (db : DB),
        (Articles.addLike u s db).2.status ∈ extStatusCodes
      ∧ (Articles.addDislike u s db).2.status ∈ extStatusCodes
      ∧ (Articles.removeLike u s db).2.status ∈ extStatusCodes
      ∧ (Articles.removeDislike u s db).2.status ∈ extStatusCodes)
    ∧ (∀ (file : Option (Except Unit String)) (authorId now : Nat)
        (body : CreateArticleBody) (db : DB),
        (Articles.createArticle file authorId now body db).2.status ∈ extStatusCodes)
    ∧ (∀ (file : Option (Except Unit String)) (authorId : Nat) (slug : String)
        (now : Nat) (body : UpdateBody) (db : DB),
        (Articles.update file authorId slug now body db).2.status ∈ extStatusCodes)
    ∧ (∀ (hashResult : Except Unit String) (token : String) (expiresAt : Nat)
        (req : CreateUserReq) (db : DB),
        (Users.create hashResult token expiresAt req db).2.status ∈ extStatusCodes)
    ∧ (∀ (hp : String) (userId : Nat) (db : DB),
        ∃ p, Users.changePassword (Except.ok hp) userId db = Except.ok p
          ∧ p.2.status ∈ extStatusCodes) :=
  ⟨fun u s db => ⟨addLike_status u s db, addDislike_status u s db,
      removeLike_status u s db, removeDislike_status u s db⟩,
    createArticle_status, update_status, usersCreate_status,
    fun hp userId db => ⟨_, rfl, by simp [serverResponse, extStatusCodes]⟩⟩

/-- C4: for createArticle and update, when the lowercased request category
names no existing `Category`, the operation resolves the article's category to
the row named `other` (the stored `categoryId` is `other.id`, and the create
response reports category "other") and appends the lowercased request category
to the article's tag list. -/
theorem unknown_category_falls_back_to_other :
    (∀ (file : Option (Except Unit String)) (authorId now : Nat)
      (body : CreateArticleBody) (db db' : DB) (other : CategoryRow)
      (art : ArticleRow) (tl : List String) (cn : String),
      db.categories.find? (fun c => c.name == toLowerStr body.category) = none →
      db.categories.find? (fun c => c.name == "other") = some other →
      toLowerStr body.category ≠ "other" →
      ',' ∉ (toLowerStr body.category).data →
      Articles.createArticle file authorId now body db
        = (db', ⟨200, Body.articleData art tl cn⟩) →
      art.categoryId = other.id ∧ toLowerStr body.category ∈ tl ∧ cn = "other")
    ∧ (∀ (file : Option (Except Unit String)) (authorId : Nat) (slug : String)
      (now : Nat) (body : UpdateBody) (db db' : DB) (c0 : String)
      (other : CategoryRow) (art : ArticleRow) (tl : List String) (cn : String),
      truthyStr body.category = some c0 →
      db.categories.find? (fun c => c.name == toLowerStr c0) = none →
      db.categories.find? (fun c => c.name == "other") = some other →
      toLowerStr c0 ≠ "other" →
      ',' ∉ (toLowerStr c0).data →
      Articles.update file authorId slug now body db
        = (db', ⟨200, Body.articleData art tl cn⟩) →
      art.categoryId = other.id ∧ toLowerStr c0 ∈ tl) := by
  constructor
  · intro file authorId now body db db' other art tl cn h1 h2 h3 h4 heq
    have hres : categoryResolve db (toLowerStr body.category) = some other := by
      unfold categoryResolve
      rw [h1, h2]
    have hname : other.name = "other" := by
      have := List.find?_some h2
      simpa using this
    have happ : appendCategoryTag other (toLowerStr body.category) body.tags
        = some (jsString body.tags ++ "," ++ toLowerStr body.category) := by
      unfold appendCategoryTag
      have hcond : (other.name == "other" && toLowerStr body.category != "other") = true := by
        simp [hname, h3]
      rw [if_pos hcond]
    unfold Articles.createArticle at heq
    simp only [hres, happ, truthyStr_append_comma, Option.map_some'] at heq
    cases hTC : Tags.create (jsString body.tags ++ "," ++ toLowerStr body.category) with
    | none =>
      rw [hTC] at heq
      simp [Articles.checkTags, Articles.canTag, serverResponse] at heq
    | some l =>
      rw [hTC] at heq
      have hcanTag : Articles.checkTags (some (some l)) = none := by
        simp only [Articles.checkTags]
        exact canTag_tagsCreate _ l hTC
      simp only [hcanTag] at heq
      cases him : Articles.imageResult file with
      | error e => simp [him, serverError] at heq
      | ok image =>
        simp only [him, serverResponse, Prod.mk.injEq, Response.mk.injEq,
          Body.articleData.injEq] at heq
        obtain ⟨hdb', -, hart, htl, hcn⟩ := heq
        subst hart
        refine ⟨rfl, ?_, hcn.symm ▸ hname⟩
        rw [← htl]
        simp only [Tags.associateArticle]
        exact tagsCreate_mem (jsString body.tags) (toLowerStr body.category) l h4 hTC
  · intro file authorId slug now body db db' c0 other art tl cn h0 h1 h2 h3 h4 heq
    have hres : categoryResolve db (toLowerStr c0) = some other := by
      unfold categoryResolve
      rw [h1, h2]
    have hname : other.name = "other" := by
      have := List.find?_some h2
      simpa using this
    have happ : appendCategoryTag other (toLowerStr c0) body.tags
        = some (jsString body.tags ++ "," ++ toLowerStr c0) := by
      unfold appendCategoryTag
      have hcond : (other.name == "other" && toLowerStr c0 != "other") = true := by
        simp [hname, h3]
      rw [if_pos hcond]
    have hemp : body.isEmpty = false := by
      unfold UpdateBody.isEmpty
      cases hbc : body.category with
      | none =>
        rw [hbc] at h0
        simp [truthyStr] at h0
      | some c => simp
    simp only [Articles.update, hemp, Bool.false_eq_true, if_false] at heq
    unfold Articles.updateRest at heq
    cases hfind : findBySlug db slug with
    | none =>
      simp only [hfind] at heq
      simp [serverResponse] at heq
    | some articleDetails =>
      simp only [hfind] at heq
      cases harch : articleDetails.isArchived with
      | true =>
        simp only [harch] at heq
        simp [serverResponse] at heq
      | false =>
        simp only [harch, Bool.false_eq_true, if_false] at heq
        have hcatstep : Articles.updateCategoryStep body articleDetails db
            = some (some (jsString body.tags ++ "," ++ toLowerStr c0), other.id) := by
          unfold Articles.updateCategoryStep
          simp only [h0, hres, happ]
        simp only [hcatstep, truthyStr_append_comma, Option.map_some'] at heq
        cases hTC : Tags.create (jsString body.tags ++ "," ++ toLowerStr c0) with
        | none =>
          rw [hTC] at heq
          simp [Articles.checkTags, Articles.canTag, serverResponse] at heq
        | some l =>
          rw [hTC] at heq
          have hcanTag : Articles.checkTags (some (some l)) = none := by
            simp only [Articles.checkTags]
            exact canTag_tagsCreate _ l hTC
          simp only [hcanTag, Option.getD_some] at heq
          cases him : Articles.imageResult file with
          | error e =>
            simp only [him] at heq
            simp [serverError] at heq
          | ok image =>
            simp only [him] at heq
            split at heq
            · simp [serverResponse] at heq
            · rename_i firstRow hfr
              simp only [serverResponse, Prod.mk.injEq, Response.mk.injEq,
                Body.articleData.injEq] at heq
              obtain ⟨hdb', -, hart, htl, hcn⟩ := heq
              subst hart
              constructor
              · rfl
              · rw [← htl]
                have hmemTag : (articleDetails.id, toLowerStr c0)
                    ∈ (Tags.associateArticle articleDetails.id (some l) db).1.articleTags :=
                  articleTags_associateArticle_mem articleDetails.id l db _
                    (tagsCreate_mem (jsString body.tags) (toLowerStr c0) l h4 hTC)
                refine List.mem_map.2 ⟨(articleDetails.id, toLowerStr c0), ?_, rfl⟩
                refine List.mem_filter.2 ⟨hmemTag, by simp⟩

theorem unknown_category_falls_back_to_other_witness :
    (({ id := 2, slug := "My Title", title := "My Title", articleBody := some "body text",
        authorId := 7, categoryId := 1, likesCount := 0, dislikesCount := 0,
        publishedAt := some 100, isArchived := false, image := none, views := 0 }
        : ArticleRow).categoryId = (⟨1, "other"⟩ : CategoryRow).id
      ∧ toLowerStr exCreateBodyUnknownCat.category ∈ ["tech", "business", "sports"]
      ∧ "other" = "other")
    ∧ (({ exArticle with publishedAt := none } : ArticleRow).categoryId
        = (⟨1, "other"⟩ : CategoryRow).id
      ∧ toLowerStr "Sports" ∈ ["tech", "sports"]) :=
  ⟨unknown_category_falls_back_to_other.1 none 7 100 exCreateBodyUnknownCat exDB
      ⟨[exArticle,
          ⟨2, "My Title", "My Title", some "body text", 7, 1, 0, 0, some 100, false, none, 0⟩],
        [], [], [⟨1, "other"⟩, ⟨2, "tech"⟩], [], [],
        [(2, "tech"), (2, "business"), (2, "sports")]⟩
      ⟨1, "other"⟩
      ⟨2, "My Title", "My Title", some "body text", 7, 1, 0, 0, some 100, false, none, 0⟩
      ["tech", "business", "sports"] "other"
      (by decide) (by decide) (by decide) (by decide) (by decide),
    unknown_category_falls_back_to_other.2 none 7 "s1" 100 exUpdateBodyCat exDB
      ⟨[{ exArticle with publishedAt := none }], [], [], [⟨1, "other"⟩, ⟨2, "tech"⟩],
        [], [], [(1, "tech"), (1, "sports")]⟩
      "Sports" ⟨1, "other"⟩ { exArticle with publishedAt := none }
      ["tech", "sports"] "other"
      (by decide) (by decide) (by decide) (by decide) (by decide) (by decide)⟩

/-- C9: on both createArticle and update the stored `publishedAt` is exactly
`computePublishedAt`, which is null precisely when the request's status is
'draft' or its articleBody is absent and the current time otherwise; on update
it is recomputed from the request body alone — every row matching the update's
where-clause gets the recomputed value regardless of its previous one, even
when status and articleBody are not among the submitted fields. -/
theorem publishedAt_recomputed_from_body :
    (∀ (status articleBody : Option String) (now : Nat),
      (computePublishedAt status articleBody now = none
        ↔ (status = some "draft" ∨ articleBody = none))
      ∧ (computePublishedAt status articleBody now = none
        ∨ computePublishedAt status articleBody now = some now))
    ∧ (∀ (file : Option (Except Unit String)) (authorId now : Nat)
        (body : CreateArticleBody) (db db' : DB) (art : ArticleRow)
        (tl : List String) (cn : String),
        Articles.createArticle file authorId now body db
          = (db', ⟨200, Body.articleData art tl cn⟩) →
        art.publishedAt = computePublishedAt body.status body.articleBody now
          ∧ db'.articles = db.articles ++ [art])
    ∧ (∀ (file : Option (Except Unit String)) (authorId : Nat) (slug : String)
        (now : Nat) (body : UpdateBody) (db : DB),
        (Articles.update file authorId slug now body db).2.status = 200 →
        ∀ a ∈ (Articles.update file authorId slug now body db).1.articles,
          a.slug = slug → a.authorId = authorId →
          a.publishedAt = computePublishedAt body.status body.articleBody now) := by
  refine ⟨?_, ?_, ?_⟩
  · intro status articleBody now
    constructor
    · unfold computePublishedAt
      split <;> rename_i hcond
      · simp only [Bool.or_eq_true, beq_iff_eq] at hcond
        simp [hcond]
      · simp only [Bool.or_eq_true, beq_iff_eq] at hcond
        simp [hcond]
    · unfold computePublishedAt
      split
      · exact Or.inl rfl
      · exact Or.inr rfl
  · intro file authorId now body db db' art tl cn heq
    unfold Articles.createArticle at heq
    cases hres : categoryResolve db (toLowerStr body.category) with
    | none => simp [hres, serverError] at heq
    | some cd =>
      simp only [hres] at heq
      cases hct : Articles.checkTags
          ((truthyStr (appendCategoryTag cd (toLowerStr body.category) body.tags)).map
            Tags.create) with
      | some p =>
        obtain ⟨st, b⟩ := p
        have h400 := checkTags_status _ (st, b) hct
        simp only [hct, serverResponse, Prod.mk.injEq, Response.mk.injEq] at heq
        simp only at h400
        omega
      | none =>
        simp only [hct] at heq
        cases him : Articles.imageResult file with
        | error e => simp [him, serverError] at heq
        | ok image =>
          simp only [him, serverResponse, Prod.mk.injEq, Response.mk.injEq,
            Body.articleData.injEq] at heq
          obtain ⟨hdb', -, hart, -, -⟩ := heq
          subst hdb'
          subst hart
          refine ⟨rfl, ?_⟩
          rw [articles_associateArticle]
  · intro file authorId slug now body db hstatus a ha hslug hauth
    cases hemp : body.isEmpty with
    | true =>
      exfalso
      simp [Articles.update, hemp, serverResponse] at hstatus
    | false =>
      simp only [Articles.update, hemp, Bool.false_eq_true, if_false] at hstatus ha
      unfold Articles.updateRest at hstatus ha
      cases hfind : findBySlug db slug with
      | none =>
        simp [hfind, serverResponse] at hstatus
      | some articleDetails =>
        simp only [hfind] at hstatus ha
        cases harch : articleDetails.isArchived with
        | true => simp [harch, serverResponse] at hstatus
        | false =>
          simp only [harch, Bool.false_eq_true, if_false] at hstatus ha
          cases hcat : Articles.updateCategoryStep body articleDetails db with
          | none => simp [hcat, serverError] at hstatus
          | some pr =>
            obtain ⟨tags', catId⟩ := pr
            simp only [hcat] at hstatus ha
            cases hct : Articles.checkTags ((truthyStr tags').map Tags.create) with
            | some p =>
              exfalso
              obtain ⟨st, b⟩ := p
              have h400 := checkTags_status _ (st, b) hct
              simp [hct, serverResponse] at hstatus
              simp only at h400
              omega
            | none =>
              simp only [hct] at hstatus ha
              cases him : Articles.imageResult file with
              | error e => simp [him, serverError] at hstatus
              | ok image =>
                simp only [him] at hstatus ha
                cases hfr : ((Tags.associateArticle articleDetails.id
                    (((truthyStr tags').map Tags.create).getD none) db).1.articles.find?
                    (fun x => x.slug == slug && x.authorId == authorId)) with
                | none => simp [hfr, serverResponse] at hstatus
                | some firstRow =>
                  simp only [hfr] at ha
                  obtain ⟨b, hb, rfl⟩ := List.mem_map.1 ha
                  by_cases hhit : (b.slug == slug && b.authorId == authorId) = true
                  · simp only [hhit, if_true]
                    rfl
                  · exfalso
                    simp only [hhit, Bool.false_eq_true, if_false] at hslug hauth
                    apply hhit
                    simp [hslug, hauth]

theorem publishedAt_recomputed_from_body_witness :
    computePublishedAt (some "draft") (some "x") 5 = none
    ∧ (({ exArticle with title := "New Title", publishedAt := none } : ArticleRow).publishedAt
        = computePublishedAt exUpdateBody.status exUpdateBody.articleBody 100) := by
  constructor
  · exact (publishedAt_recomputed_from_body.1 (some "draft") (some "x") 5).1.mpr (Or.inl rfl)
  · exact publishedAt_recomputed_from_body.2.2 none 7 "s1" 100 exUpdateBody exDB
      (by decide) { exArticle with title := "New Title", publishedAt := none }
      (by decide) (by decide) (by decide)

theorem catch_all_maps_exceptions_to_500_witness :
    Users.create (Except.error ()) "tok" 99 exReq exDB = (exDB, serverError)
    ∧ Articles.createArticle (some (Except.error ())) 7 100 exCreateBody exDB
        = (exDB, serverError)
    ∧ Users.changePassword (Except.error ()) 3 exDB = Except.error () :=
  ⟨catch_all_maps_exceptions_to_500.1 () "tok" 99 exReq exDB (by decide) (by decide),
    catch_all_maps_exceptions_to_500.2.1 () 7 100 exCreateBody exDB ⟨2, "tech"⟩
      (by decide) (by decide),
    catch_all_maps_exceptions_to_500.2.2 () 3 exDB⟩

end AhRambo
